import Mathlib

/-!
Shallow embedding of the WFC terrain generator core
(`src/blender/tile.py`, `src/blender/wfc_algorithm.py`,
`src/blender/terrain_generator.py`).

Modelling conventions:
* Python `set` becomes `Finset`; a socket token set is `Finset String`.
* A Python dict from directions to token sets becomes
  `Direction → Option (Finset String)` (a key may be absent; `dict.get`
  with a default becomes `Option.getD`).
* Python floats (tile weights, guidance values) become `ℚ`; no settled
  claim depends on rounding behaviour of binary floats.
* `next(iter(s))` on a set of small ints is modelled as the least element
  (`firstElem`); every use in the source applies it to singleton sets.
* The externally supplied `random.Random` instance is modelled as an
  abstract deterministic sampler `RNG` (the spec only requires the source
  to be deterministic for a fixed seed).
* Python attribute errors are modelled with `Except PyErr`: the class
  `WFCGrid.__init__` never assigns an attribute named `cells` and never
  defines a method named `index`, so every read of `grid.cells` is
  `WFCGrid.getCells` (an `Except` that fails with
  `PyErr.attributeErrorCells` while the `cells` field is `none`, as
  `__init__` leaves it) and every call of `grid.index` is
  `WFCGrid.index_lookup` (which always fails with
  `PyErr.attributeErrorIndex`).
* Unbounded `while` loops take an explicit fuel argument; running out of
  fuel yields the sentinel `PyErr.nonTermination`, which is never reached
  in any theorem below.
-/

/-- The six grid directions (`tile.py`, `DIRECTIONS`). -/
inductive Direction
  | EAST
  | WEST
  | NORTH
  | SOUTH
  | UP
  | DOWN
deriving DecidableEq, Repr

/-- Source `OPPOSITE` mapping from `tile.py`. -/
def OPPOSITE : Direction → Direction
  | .EAST => .WEST
  | .WEST => .EAST
  | .NORTH => .SOUTH
  | .SOUTH => .NORTH
  | .UP => .DOWN
  | .DOWN => .UP

/-- Source `CARDINAL` list from `tile.py` (order matters for rotation). -/
def CARDINAL : List Direction := [.NORTH, .EAST, .SOUTH, .WEST]

/-- Source `DIRECTIONS` tuple from `tile.py`: direction, offset vector, Blender property name. -/
def DIRECTIONS : List (Direction × (Int × Int × Int) × String) :=
  [ (.EAST, (1, 0, 0), "WFC_E"),
    (.WEST, (-1, 0, 0), "WFC_W"),
    (.NORTH, (0, 1, 0), "WFC_N"),
    (.SOUTH, (0, -1, 0), "WFC_S"),
    (.UP, (0, 0, 1), "WFC_UP"),
    (.DOWN, (0, 0, -1), "WFC_DN") ]

/-- The special token `"NA"` (hard incompatibility). -/
def tokNA : String := "NA"

/-- The special wildcard token `"*"`. -/
def tokStar : String := "*"

/-- A sockets map: Python dict `Direction → set of tokens`; keys may be absent. -/
def Sockets : Type := Direction → Option (Finset String)

/-- Dict lookup `sockets.get(d, default)` with the wildcard default with wildcard default, as used in
`build_adjacency` and `_rotate_sockets_map`. -/
def socketGet (s : Sockets) (d : Direction) : Finset String := (s d).getD {tokStar}

/-- Dict update `out[d] = v`. -/
def updateSockets (m : Sockets) (d : Direction) (v : Finset String) : Sockets :=
  fun e => if e = d then some v else m e

/-- The totally undefined sockets dict `{}`. -/
def emptySockets : Sockets := fun _ => none

/-- Class `WFCTile` from `src/blender/tile.py`. -/
structure WFCTile where
  name : String
  sockets : Sockets
  weight : ℚ
  allow_rot : Bool

/-- Method `WFCTile.sockets_compatible` from `src/blender/tile.py` lines 128-148:
`"NA"` veto first, then `"*"` wildcard, then set intersection. -/
def sockets_compatible (tokens_a tokens_b : Finset String) : Bool :=
  if tokNA ∈ tokens_a ∨ tokNA ∈ tokens_b then false
  else if tokStar ∈ tokens_a ∨ tokStar ∈ tokens_b then true
  else decide (tokens_a ∩ tokens_b).Nonempty

/-- Method `WFCTileVariant._rotate_sockets_map` from `src/blender/tile.py` lines 179-208:
each cardinal source face `CARDINAL[i]` moves to destination `CARDINAL[(i+rot) % 4]`,
missing faces default to the wildcard set; `UP`/`DOWN` are copied unchanged. -/
def _rotate_sockets_map (sockets : Sockets) (rot : ℕ) : Sockets :=
  let r := rot % 4
  let out0 : Sockets := emptySockets
  let out1 := (List.range 4).foldl
    (fun acc i =>
      updateSockets acc (CARDINAL.getD ((i + r) % 4) Direction.NORTH)
        (socketGet sockets (CARDINAL.getD i Direction.NORTH)))
    out0
  let out2 := updateSockets out1 Direction.UP (socketGet sockets Direction.UP)
  updateSockets out2 Direction.DOWN (socketGet sockets Direction.DOWN)

/-- Class `WFCTileVariant` from `src/blender/tile.py`. -/
structure WFCTileVariant where
  base : WFCTile
  rot : ℕ
  name : String
  sockets : Sockets
  weight : ℚ
  allow_rot : Bool

/-- Constructor `WFCTileVariant.__init__` (`src/blender/tile.py` lines 157-177). -/
def WFCTileVariant.make (base : WFCTile) (rot : ℕ) : WFCTileVariant :=
  let r := rot % 4
  { base := base
    rot := r
    name := base.name ++ "_r" ++ toString (r * 90)
    sockets := _rotate_sockets_map base.sockets r
    weight := base.weight
    allow_rot := false }

/-- Function `create_variants` from `src/blender/terrain_generator.py` lines 6-9:
identity mapping, one `rot=0` variant per base, ignoring `allow_rot`. -/
def create_variants (bases : List WFCTile) : List WFCTileVariant :=
  bases.map fun b => WFCTileVariant.make b 0

/-- Boolean adjacency test for one ordered pair inside `build_adjacency`
(`src/blender/wfc_algorithm.py` lines 8-23): the redundant `"NA"` skip
followed by `sockets_compatible`. -/
def adjacencyPair (tile_A tile_B : WFCTileVariant) (direction : Direction) : Bool :=
  let socket_a := socketGet tile_A.sockets direction
  let socket_b := socketGet tile_B.sockets (OPPOSITE direction)
  if tokNA ∈ socket_a ∨ tokNA ∈ socket_b then false
  else sockets_compatible socket_a socket_b

/-- Function `build_adjacency` from `src/blender/wfc_algorithm.py` lines 6-24:
`allowed[direction][i]` is the set of neighbour indices `j` compatible with `i`. -/
def build_adjacency (tiles : List WFCTileVariant) : Direction → ℕ → Finset ℕ :=
  fun direction i =>
    match tiles.get? i with
    | none => ∅
    | some tile_A =>
      (Finset.range tiles.length).filter fun j =>
        (match tiles.get? j with
         | none => false
         | some tile_B => adjacencyPair tile_A tile_B direction) = true

/-- Abstract deterministic random source standing in for `random.Random`:
`choice` models `rng.choice(candidates)`, `choices` models
`rng.choices(options, weights=weights, k=1)[0]`. -/
structure RNG where
  choice : List ℕ → ℕ
  choices : List ℕ → List ℚ → ℕ

/-- Optional guidance function `guidance(x, y, z, optionIndex)`. -/
def Guidance : Type := ℕ → ℕ → ℕ → ℕ → ℚ

/-- Python runtime errors relevant to this program. -/
inductive PyErr
  | attributeErrorCells
  | attributeErrorIndex
  | nonTermination
deriving DecidableEq, Repr

/-- Class `WFCGrid` object state (`src/blender/wfc_algorithm.py` lines 27-42).
The field `cells` models the Python attribute of that name: `__init__`
never assigns it, so it starts as `none` and no code path ever assigns it. -/
structure WFCGrid where
  sx : ℕ
  sy : ℕ
  sz : ℕ
  tiles : List WFCTileVariant
  adj : Direction → ℕ → Finset ℕ
  rng : RNG
  guidance : Option Guidance
  possible_tiles_for_cells : List (Finset ℕ)
  collapsed : List (Option ℕ)
  cells : Option (List (Finset ℕ))

/-- Constructor `WFCGrid.__init__` (`src/blender/wfc_algorithm.py` lines 27-42): stores the
per-cell possibility sets only under `possible_tiles_for_cells`; the attribute
`cells` is never assigned. -/
def WFCGrid.init (size_x size_y size_z : ℕ) (tiles : List WFCTileVariant)
    (adjacency : Direction → ℕ → Finset ℕ) (rng : RNG) (guidance : Option Guidance) :
    WFCGrid :=
  { sx := size_x
    sy := size_y
    sz := size_z
    tiles := tiles
    adj := adjacency
    rng := rng
    guidance := guidance
    possible_tiles_for_cells :=
      List.replicate (size_x * size_y * size_z) (Finset.range tiles.length)
    collapsed := List.replicate (size_x * size_y * size_z) none
    cells := none }

/-- A read of the Python attribute `self.cells` / `grid.cells`: raises
`AttributeError` while the attribute was never assigned. -/
def WFCGrid.getCells (g : WFCGrid) : Except PyErr (List (Finset ℕ)) :=
  match g.cells with
  | some c => Except.ok c
  | none => Except.error PyErr.attributeErrorCells

/-- A call of the nonexistent method `grid.index` (the defined method is
`index_of_cell`): the attribute lookup raises `AttributeError`. -/
def WFCGrid.index_lookup (_g : WFCGrid) : Except PyErr (Int → Int → Int → Int) :=
  Except.error PyErr.attributeErrorIndex

/-- Method `WFCGrid.index_of_cell` (`src/blender/wfc_algorithm.py` line 44). -/
def index_of_cell (g : WFCGrid) (x y z : Int) : Int :=
  x + (g.sx : Int) * (y + (g.sy : Int) * z)

/-- Method `WFCGrid.in_bounds` (`src/blender/wfc_algorithm.py` line 50). -/
def in_bounds (g : WFCGrid) (x y z : Int) : Bool :=
  decide (0 ≤ x ∧ x < (g.sx : Int)) && decide (0 ≤ y ∧ y < (g.sy : Int)) &&
    decide (0 ≤ z ∧ z < (g.sz : Int))

/-- Method `WFCGrid.neighbors` (`src/blender/wfc_algorithm.py` lines 56-64). -/
def neighborsOf (g : WFCGrid) (x y z : Int) : List (Direction × Int × Int × Int) :=
  DIRECTIONS.filterMap fun dv =>
    let direction := dv.1
    let dx := dv.2.1.1
    let dy := dv.2.1.2.1
    let dz := dv.2.1.2.2
    if in_bounds g (x + dx) (y + dy) (z + dz) then
      some (direction, x + dx, y + dy, z + dz)
    else none

/-- The `x, y, z` decoding of a flat index used in `collapse_random`,
`propagate` and `generate`. -/
def neighborsOfIdx (g : WFCGrid) (idx : ℕ) : List (Direction × Int × Int × Int) :=
  neighborsOf g ((idx % g.sx : ℕ) : Int) (((idx / g.sx) % g.sy : ℕ) : Int)
    ((idx / (g.sx * g.sy) : ℕ) : Int)

/-- Expression `next(iter(s))` for the singleton sets this program applies it to,
modelled as a canonical element (the fold of `max`, which is the unique
element whenever `s` is a singleton). -/
def firstElem (s : Finset ℕ) : ℕ := s.fold max 0 id

/-- Method `WFCGrid.is_solved` (`src/blender/wfc_algorithm.py` lines 223-228):
reads the never-assigned attribute `self.cells`. -/
def is_solved (g : WFCGrid) : Except PyErr Bool := do
  let cells ← g.getCells
  pure (cells.all fun propable_tiles => propable_tiles.card == 1)

/-- Method `WFCGrid._entropy_cell_indices` (`src/blender/wfc_algorithm.py` lines 70-109):
iterates over the never-assigned attribute `self.cells`. -/
def _entropy_cell_indices (g : WFCGrid) : Except PyErr (List ℕ) := do
  let cells ← g.getCells
  let result := cells.enum.foldl
    (fun (acc : Option ℕ × List ℕ) ip =>
      let min_len := acc.1
      let candidates := acc.2
      let idx := ip.1
      let num := ip.2.card
      if (g.collapsed.getD idx none).isSome then acc
      else if num ≤ 1 then acc
      else
        match min_len with
        | none => (some num, [idx])
        | some m =>
          if num < m then (some num, [idx])
          else if num = m then (some m, candidates ++ [idx])
          else acc)
    (none, [])
  pure result.2

/-- Method `WFCGrid.collapse_random` (`src/blender/wfc_algorithm.py` lines 111-150).
Both the entropy scan and the final possibility-set update go through the
never-assigned attribute `self.cells`. -/
def collapse_random (g : WFCGrid) : Except PyErr (Option ℕ × WFCGrid) := do
  let candidates ← _entropy_cell_indices g
  let candidates ←
    if candidates.isEmpty then do
      let cells ← g.getCells
      pure ((List.range cells.length).filter fun i =>
        (g.collapsed.getD i none) = none ∧ 1 < (cells.getD i ∅).card)
    else pure candidates
  if candidates.isEmpty then pure (none, g)
  else
    let idx := g.rng.choice candidates
    let options := (g.possible_tiles_for_cells.getD idx ∅).sort (· ≤ ·)
    let weights : List ℚ := options.map fun o =>
      (g.tiles.getD o (WFCTileVariant.make ⟨"", emptySockets, 1, true⟩ 0)).weight
    let weights : List ℚ :=
      match g.guidance with
      | none => weights
      | some gd =>
        let x := idx % g.sx
        let y := (idx / g.sx) % g.sy
        let z := idx / (g.sx * g.sy)
        (weights.zip options).map fun wo => wo.1 * max (1 / 10000 : ℚ) (gd x y z wo.2)
    let weights : List ℚ := if weights.sum ≤ 0 then weights.map fun _ => (1 : ℚ) else weights
    let choice := g.rng.choices options weights
    let cells ← g.getCells
    pure (some idx,
      { g with
        cells := some (cells.set idx {choice})
        collapsed := g.collapsed.set idx (some choice) })

/-- The state update of `WFCGrid.propagate` lines 207-218: store the shrunken
possibility set for the neighbour and, when it shrank to a single tile and the
neighbour is not collapsed, collapse the neighbour into that tile. -/
def writeCell (g : WFCGrid) (nidx : ℕ) (common : Finset ℕ) : WFCGrid :=
  { g with
    possible_tiles_for_cells := g.possible_tiles_for_cells.set nidx common
    collapsed :=
      if common.card = 1 ∧ g.collapsed.getD nidx none = none
      then g.collapsed.set nidx (some (firstElem common))
      else g.collapsed }

/-- The per-neighbour body of `WFCGrid.propagate`
(`src/blender/wfc_algorithm.py` lines 178-218), iterated over the neighbour
list of the popped cell `idx`. Returns `(ok, grid, queue)`; `ok = false` is
the `return False` contradiction exit, which keeps all updates already made. -/
def propagateNeighbors (idx : ℕ) :
    List (Direction × Int × Int × Int) → WFCGrid → List ℕ → Bool × WFCGrid × List ℕ
  | [], g, q => (true, g, q)
  | (direction, nx, ny, nz) :: rest, g, q =>
    let nidx := (index_of_cell g nx ny nz).toNat
    let possN := g.possible_tiles_for_cells.getD nidx ∅
    if possN = ∅ then (false, g, q)
    else
      let possC := g.possible_tiles_for_cells.getD idx ∅
      let allowedN := possC.biUnion fun th => g.adj direction th
      let common := possN ∩ allowedN
      if common = ∅ then (false, g, q)
      else if common = possN then propagateNeighbors idx rest g q
      else propagateNeighbors idx rest (writeCell g nidx common) (q ++ [nidx])

/-- The worklist loop of `WFCGrid.propagate` (`src/blender/wfc_algorithm.py`
lines 168-221), with explicit fuel (`none` = fuel ran out, never reached by
the fuel chosen in `solveLoop`). -/
def propagateLoop : ℕ → List ℕ → WFCGrid → Option (Bool × WFCGrid)
  | 0, _, _ => none
  | _ + 1, [], g => some (true, g)
  | fuel + 1, idx :: q, g =>
    match propagateNeighbors idx (neighborsOfIdx g idx) g q with
    | (false, gm, _) => some (false, gm)
    | (true, gm, qm) => propagateLoop fuel qm gm

/-- Method `WFCGrid.propagate` (`src/blender/wfc_algorithm.py` lines 152-221): seeds the
queue with every collapsed cell in index order, then runs the worklist loop. -/
def propagate (fuel : ℕ) (g : WFCGrid) : Option (Bool × WFCGrid) :=
  propagateLoop fuel
    ((List.range g.collapsed.length).filter fun i => (g.collapsed.getD i none).isSome)
    g

/-- A fuel bound sufficient for `propagateLoop` (each iteration pops the queue
or strictly shrinks a possibility set, each shrink enqueuing at most one cell
per processed neighbour). -/
def propFuel (g : WFCGrid) : ℕ :=
  7 * ((g.possible_tiles_for_cells.map Finset.card).sum + g.collapsed.length) + 7

/-- The `while not grid.is_solved()` loop of `generate`
(`src/blender/terrain_generator.py` lines 24-35). The `step_callback` branch
reads `grid.cells[idx]` to compute the callback argument; the callback side
effect itself is outside the model. -/
def solveLoop (step_callback : Bool) : ℕ → WFCGrid → Except PyErr WFCGrid
  | 0, _ => Except.error PyErr.nonTermination
  | fuel + 1, g => do
    let solved ← is_solved g
    if solved then pure g
    else do
      let res ← collapse_random g
      match res.1 with
      | none => pure res.2
      | some idx => do
        if step_callback then do
          let cells ← res.2.getCells
          let _vi := firstElem (cells.getD idx ∅)
          pure ()
        else pure ()
        match propagate (propFuel res.2) res.2 with
        | none => Except.error PyErr.nonTermination
        | some (ok, g2) => if ok then solveLoop step_callback fuel g2 else pure g2

/-- The neighbour scan of one repair iteration
(`src/blender/terrain_generator.py` lines 49-56): each neighbour lookup calls
the nonexistent `grid.index` and reads `grid.cells`; `allowed` empties cause
an early break. -/
def repairNeighborLoop (adjacency : Direction → ℕ → Finset ℕ) (g : WFCGrid) :
    List (Direction × Int × Int × Int) → Finset ℕ → Except PyErr (Finset ℕ)
  | [], allowed => pure allowed
  | (dir_name, nx, ny, nz) :: rest, allowed => do
    let indexFn ← g.index_lookup
    let nidx := (indexFn nx ny nz).toNat
    if g.collapsed.getD nidx none = none then
      repairNeighborLoop adjacency g rest allowed
    else do
      let cells ← g.getCells
      let ncur := firstElem (cells.getD nidx ∅)
      let allowed2 := allowed ∩ adjacency dir_name ncur
      if allowed2 = ∅ then pure allowed2
      else repairNeighborLoop adjacency g rest allowed2

/-- One cell of one repair pass (`src/blender/terrain_generator.py` lines 41-70).
Returns the grid and the number of fixes performed (0 or 1). -/
def repairCellStep (adjacency : Direction → ℕ → Finset ℕ)
    (variants : List WFCTileVariant) (guidance : Option Guidance) (rng : RNG)
    (g : WFCGrid) (idx : ℕ) : Except PyErr (WFCGrid × ℕ) := do
  if g.collapsed.getD idx none = none then pure (g, 0)
  else do
    let cells ← g.getCells
    let cur := firstElem (cells.getD idx ∅)
    let x := idx % g.sx
    let y := (idx / g.sx) % g.sy
    let z := idx / (g.sx * g.sy)
    let allowed ← repairNeighborLoop adjacency g
      (neighborsOf g (x : Int) (y : Int) (z : Int)) (Finset.range variants.length)
    if allowed ≠ ∅ ∧ cur ∉ allowed then
      let options := allowed.sort (· ≤ ·)
      let weights : List ℚ := options.map fun o =>
        (variants.getD o (WFCTileVariant.make ⟨"", emptySockets, 1, true⟩ 0)).weight
      let weights : List ℚ :=
        match guidance with
        | none => weights
        | some gd => (weights.zip options).map fun wo =>
            wo.1 * max (1 / 10000 : ℚ) (gd x y z wo.2)
      let weights : List ℚ := if weights.sum ≤ 0 then weights.map fun _ => (1 : ℚ) else weights
      let choice := rng.choices options weights
      if choice ≠ cur then do
        let cells2 ← g.getCells
        pure ({ g with
                cells := some (cells2.set idx {choice})
                collapsed := g.collapsed.set idx (some choice) }, 1)
      else pure (g, 0)
    else pure (g, 0)

/-- One full repair pass over all cells (`src/blender/terrain_generator.py`
lines 40-70), accumulating the fix count. -/
def repairPassOnce (adjacency : Direction → ℕ → Finset ℕ)
    (variants : List WFCTileVariant) (guidance : Option Guidance) (rng : RNG)
    (total : ℕ) (g : WFCGrid) : Except PyErr (WFCGrid × ℕ) :=
  (List.range total).foldlM
    (fun st idx => do
      let res ← repairCellStep adjacency variants guidance rng st.1 idx
      pure (res.1, st.2 + res.2))
    (g, 0)

/-- The outer repair-pass loop (`src/blender/terrain_generator.py` lines 38-72):
runs up to `post_repair_passes` passes, stopping early after a fixless pass. -/
def repairPasses (adjacency : Direction → ℕ → Finset ℕ)
    (variants : List WFCTileVariant) (guidance : Option Guidance) (rng : RNG)
    (total : ℕ) : ℕ → WFCGrid → Except PyErr WFCGrid
  | 0, g => pure g
  | n + 1, g => do
    let res ← repairPassOnce adjacency variants guidance rng total g
    if res.2 = 0 then pure res.1
    else repairPasses adjacency variants guidance rng total n res.1

/-- The placement extraction loops of `generate`
(`src/blender/terrain_generator.py` lines 74-82): every iterated cell first
calls the nonexistent `grid.index`; the short-circuit `or` reads `grid.cells`
only when the cell is collapsed. -/
def collectPlacements (g : WFCGrid) (sx sy sz : ℕ) :
    Except PyErr (List (ℕ × ℕ × ℕ × ℕ)) :=
  (List.range sz).foldlM
    (fun acc (z : ℕ) =>
      (List.range sy).foldlM
        (fun acc2 (y : ℕ) =>
          (List.range sx).foldlM
            (fun (acc3 : List (ℕ × ℕ × ℕ × ℕ)) (x : ℕ) => do
              let indexFn ← g.index_lookup
              let idx := (indexFn (x : Int) (y : Int) (z : Int)).toNat
              if g.collapsed.getD idx none = none then pure acc3
              else do
                let cells ← g.getCells
                if (cells.getD idx ∅).card ≠ 1 then pure acc3
                else pure (acc3 ++ [(x, y, z, firstElem (cells.getD idx ∅))]))
            acc2)
        acc)
    ([] : List (ℕ × ℕ × ℕ × ℕ))

/-- The dict returned by `generate`. -/
structure GenResult where
  placements : List (ℕ × ℕ × ℕ × ℕ)
  variants : List WFCTileVariant
  size : ℕ × ℕ × ℕ

/-- Function `generate` from `src/blender/terrain_generator.py` lines 11-87: build the
variants and adjacency, construct the grid, run the solve loop, run the repair
passes, extract placements. Grid dimensions are natural numbers (a
non-positive Python dimension yields an empty `range`, modelled by `0`). -/
def generate (bases : List WFCTile) (sx sy sz : ℕ) (rng : RNG)
    (guidance : Option Guidance) (step_callback : Bool) (post_repair_passes : ℕ) :
    Except PyErr GenResult := do
  let variants := create_variants bases
  let adjacency := build_adjacency variants
  let grid := WFCGrid.init sx sy sz variants adjacency rng guidance
  let grid ← solveLoop step_callback (sx * sy * sz + 1) grid
  let grid ← repairPasses adjacency variants guidance rng (sx * sy * sz) post_repair_passes grid
  let placements ← collectPlacements grid sx sy sz
  pure { placements := placements, variants := variants, size := (sx, sy, sz) }

/-- The cell-level solver invariant of the spec:
`collapsed is Some(v) ⇔ possibilities == {v}`. -/
def cellOk (c : Option ℕ) (p : Finset ℕ) : Prop :=
  match c with
  | some v => p = {v}
  | none => p.card ≠ 1

instance instDecidableCellOk (c : Option ℕ) (p : Finset ℕ) : Decidable (cellOk c p) :=
  match c with
  | some v => inferInstanceAs (Decidable (p = {v}))
  | none => inferInstanceAs (Decidable (p.card ≠ 1))

/-- The grid-level solver invariant: the two per-cell arrays have equal length
and every cell satisfies `cellOk`. -/
def Invariant (g : WFCGrid) : Prop :=
  g.collapsed.length = g.possible_tiles_for_cells.length ∧
    ∀ i, i < g.collapsed.length →
      cellOk (g.collapsed.getD i none) (g.possible_tiles_for_cells.getD i ∅)

instance instDecidableInvariant (g : WFCGrid) : Decidable (Invariant g) :=
  inferInstanceAs (Decidable (_ ∧ ∀ i, i < g.collapsed.length →
    cellOk (g.collapsed.getD i none) (g.possible_tiles_for_cells.getD i ∅)))

/-- No cell has an empty possibility set. -/
def AllNonempty (g : WFCGrid) : Prop :=
  ∀ i, i < g.possible_tiles_for_cells.length →
    g.possible_tiles_for_cells.getD i ∅ ≠ ∅

instance instDecidableAllNonempty (g : WFCGrid) : Decidable (AllNonempty g) :=
  inferInstanceAs (Decidable (∀ i, i < g.possible_tiles_for_cells.length →
    g.possible_tiles_for_cells.getD i ∅ ≠ ∅))

/-- Fixture: a tile whose every face is the wildcard set. -/
def tileW : WFCTile :=
  { name := "wild"
    sockets := fun _ => some {tokStar}
    weight := 1
    allow_rot := false }

/-- Fixture: a tile whose every face is `{"NA"}` and rotation disabled
(spec section 8, second scenario). -/
def tileNA : WFCTile :=
  { name := "blocked"
    sockets := fun _ => some {tokNA}
    weight := 1
    allow_rot := false }

/-- Fixture: a rotation-enabled tile. -/
def tileR : WFCTile :=
  { name := "spinner"
    sockets := fun _ => some {tokStar}
    weight := 1
    allow_rot := true }

/-- Fixture: a trivial deterministic random source. -/
def rng0 : RNG :=
  { choice := fun _ => 0
    choices := fun _ _ => 0 }

/-- Fixture: default tile used for out-of-range list reads. -/
def dummyTile : WFCTile :=
  { name := "", sockets := emptySockets, weight := 1, allow_rot := true }

/-- Fixture: default variant used for out-of-range list reads. -/
def dummyVariant : WFCTileVariant := WFCTileVariant.make dummyTile 0

/-- Fixture adjacency for the propagation witness: tile 0 allows tile 1 east
of it, tile 1 allows tile 0 west of it. -/
def adjPair : Direction → ℕ → Finset ℕ :=
  fun d i =>
    match d, i with
    | .EAST, 0 => {1}
    | .WEST, 1 => {0}
    | _, _ => ∅

/-- Fixture: a 2x1x1 grid mid-run, cell 0 collapsed to tile 0, cell 1 open. -/
def gIn : WFCGrid :=
  { sx := 2
    sy := 1
    sz := 1
    tiles := [dummyVariant, dummyVariant]
    adj := adjPair
    rng := rng0
    guidance := none
    possible_tiles_for_cells := [{0}, {0, 1}]
    collapsed := [some 0, none]
    cells := none }

/-- Fixture: the grid `propagate` produces from `gIn` — cell 1 forced to tile 1. -/
def gOut : WFCGrid :=
  { gIn with
    possible_tiles_for_cells := [{0}, {1}]
    collapsed := [some 0, some 1] }

/-- Fixture: a fully defined sockets map for the rotation-closure witness. -/
def socketsTotal : Sockets :=
  fun d =>
    match d with
    | .NORTH => some {tokNA}
    | .EAST => some {tokStar}
    | .SOUTH => some ∅
    | .WEST => some {tokNA, tokStar}
    | .UP => some {tokStar}
    | .DOWN => some {tokNA}

/-! ### Helper lemmas about list access -/

/-- Out-of-range `getD` yields the default. -/
theorem list_getD_len_le {α : Type} :
    ∀ (l : List α) (i : ℕ) (d : α), l.length ≤ i → l.getD i d = d
  | [], i, d, _ => by cases i <;> rfl
  | _ :: xs, i + 1, d, h => list_getD_len_le xs i d (by simpa using h)
  | _ :: _, 0, _, h => absurd h (by simp)

/-- In-range `getD` after `set` at the same index yields the written value. -/
theorem list_getD_set_self {α : Type} :
    ∀ (l : List α) (i : ℕ) (a d : α), i < l.length → (l.set i a).getD i d = a
  | [], _, _, _, h => absurd h (by simp)
  | _ :: _, 0, _, _, _ => rfl
  | _ :: xs, i + 1, a, d, h => list_getD_set_self xs i a d (by simpa using h)

/-- Reading with `getD` after `set` at a different index is unchanged. -/
theorem list_getD_set_ne {α : Type} :
    ∀ (l : List α) (i j : ℕ) (a d : α), i ≠ j → (l.set i a).getD j d = l.getD j d
  | [], _, _, _, _, _ => by simp
  | _ :: _, 0, 0, _, _, h => absurd rfl h
  | _ :: _, 0, _ + 1, _, _, _ => rfl
  | _ :: _, _ + 1, 0, _, _, _ => rfl
  | _ :: xs, i + 1, j + 1, a, d, h => list_getD_set_ne xs i j a d (fun hh => h (by rw [hh]))

/-- Reading with `getD` over `map` with the mapped default. -/
theorem list_getD_map {α β : Type} (f : α → β) :
    ∀ (l : List α) (i : ℕ) (d : α), i < l.length →
      (l.map f).getD i (f d) = f (l.getD i d)
  | [], _, _, h => absurd h (by simp)
  | _ :: _, 0, _, _ => rfl
  | _ :: xs, i + 1, d, h => list_getD_map f xs i d (by simpa using h)

/-- Evaluation of `firstElem` on a singleton is its element. -/
theorem firstElem_singleton (a : ℕ) : firstElem {a} = a := by
  simp [firstElem]

/-! ### Invariant preservation of the propagation sweep -/

/-- Writing a nonempty strict subset of the possibility set into a cell,
collapsing the cell when the set shrank to a singleton, preserves the solver
invariant and keeps every possibility set nonempty. -/
theorem invariant_write (g : WFCGrid) (nidx : ℕ) (common : Finset ℕ)
    (hinv : Invariant g) (hne : AllNonempty g)
    (hsub : common ⊆ g.possible_tiles_for_cells.getD nidx ∅)
    (hcne : common ≠ ∅)
    (hneq : common ≠ g.possible_tiles_for_cells.getD nidx ∅)
    (hpne : g.possible_tiles_for_cells.getD nidx ∅ ≠ ∅) :
    Invariant (writeCell g nidx common) ∧ AllNonempty (writeCell g nidx common) := by
  have hlt : nidx < g.possible_tiles_for_cells.length := by
    by_contra hge
    exact hpne (list_getD_len_le _ _ _ (le_of_not_lt hge))
  have hltc : nidx < g.collapsed.length := by
    rw [hinv.1]; exact hlt
  have hposs : (writeCell g nidx common).possible_tiles_for_cells
      = g.possible_tiles_for_cells.set nidx common := rfl
  have hlen2 : (writeCell g nidx common).collapsed.length = g.collapsed.length := by
    unfold writeCell
    split <;> simp
  refine ⟨⟨?_, ?_⟩, ?_⟩
  · rw [hlen2, hposs, List.length_set, hinv.1]
  · intro i hi
    rw [hlen2] at hi
    rw [hposs]
    by_cases hieq : i = nidx
    · subst hieq
      rw [list_getD_set_self _ _ _ _ hlt]
      rcases hcol : g.collapsed.getD i none with _ | v
      · by_cases hcard : common.card = 1
        · have hc2 : (writeCell g i common).collapsed
              = g.collapsed.set i (some (firstElem common)) := by
            unfold writeCell
            rw [if_pos ⟨hcard, hcol⟩]
          rw [hc2, list_getD_set_self _ _ _ _ hltc]
          obtain ⟨a, ha⟩ := Finset.card_eq_one.mp hcard
          rw [ha, firstElem_singleton]
          simp [cellOk]
        · have hc2 : (writeCell g i common).collapsed = g.collapsed := by
            unfold writeCell
            rw [if_neg (fun hc => hcard hc.1)]
          rw [hc2, hcol]
          simpa [cellOk] using hcard
      · exfalso
        have hcell := hinv.2 i hltc
        rw [hcol] at hcell
        have hpossv : g.possible_tiles_for_cells.getD i ∅ = {v} := hcell
        rw [hpossv] at hsub hneq
        rcases Finset.subset_singleton_iff.mp hsub with h0 | h1
        · exact hcne h0
        · exact hneq h1
    · rw [list_getD_set_ne _ _ _ _ _ (fun hh => hieq hh.symm)]
      have hc2 : (writeCell g nidx common).collapsed.getD i none
          = g.collapsed.getD i none := by
        unfold writeCell
        split
        · exact list_getD_set_ne _ _ _ _ _ (fun hh => hieq hh.symm)
        · rfl
      rw [hc2]
      exact hinv.2 i hi
  · intro i hi
    rw [hposs] at hi ⊢
    rw [List.length_set] at hi
    by_cases hieq : i = nidx
    · subst hieq
      rw [list_getD_set_self _ _ _ _ hlt]
      exact hcne
    · rw [list_getD_set_ne _ _ _ _ _ (fun hh => hieq hh.symm)]
      exact hne i hi

/-- The neighbour sweep of one popped cell preserves the invariant and
nonemptiness, on both the normal and the contradiction exit. -/
theorem propagateNeighbors_inv (idx : ℕ) :
    ∀ (nbrs : List (Direction × Int × Int × Int)) (g : WFCGrid) (q : List ℕ)
      (b : Bool) (g2 : WFCGrid) (q2 : List ℕ),
      Invariant g → AllNonempty g →
      propagateNeighbors idx nbrs g q = (b, g2, q2) →
      Invariant g2 ∧ AllNonempty g2 := by
  intro nbrs
  induction nbrs with
  | nil =>
    intro g q b g2 q2 hinv hne h
    simp only [propagateNeighbors] at h
    injection h with hb hrest
    injection hrest with hg hq
    subst hg
    exact ⟨hinv, hne⟩
  | cons nb rest ih =>
    intro g q b g2 q2 hinv hne h
    obtain ⟨d, nx, ny, nz⟩ := nb
    simp only [propagateNeighbors] at h
    split_ifs at h with h1 h2 h3
    · injection h with hb hrest
      injection hrest with hg hq
      subst hg
      exact ⟨hinv, hne⟩
    · injection h with hb hrest
      injection hrest with hg hq
      subst hg
      exact ⟨hinv, hne⟩
    · exact ih g q b g2 q2 hinv hne h
    · have hw := invariant_write g _ _ hinv hne Finset.inter_subset_left h2 h3 h1
      exact ih _ _ b g2 q2 hw.1 hw.2 h

/-- The worklist loop of `propagate` preserves the invariant and
nonemptiness for any fuel, on both normal and contradiction exits. -/
theorem propagateLoop_inv :
    ∀ (fuel : ℕ) (q : List ℕ) (g : WFCGrid) (r : Bool) (g2 : WFCGrid),
      Invariant g → AllNonempty g →
      propagateLoop fuel q g = some (r, g2) →
      Invariant g2 ∧ AllNonempty g2 := by
  intro fuel
  induction fuel with
  | zero =>
    intro q g r g2 _ _ h
    simp [propagateLoop] at h
  | succ n ih =>
    intro q g r g2 hinv hne h
    cases q with
    | nil =>
      simp only [propagateLoop] at h
      injection h with h1
      injection h1 with hr hg
      subst hg
      exact ⟨hinv, hne⟩
    | cons idx rest =>
      simp only [propagateLoop] at h
      rcases hpn : propagateNeighbors idx (neighborsOfIdx g idx) g rest with ⟨b, gm, qm⟩
      rw [hpn] at h
      have hmid := propagateNeighbors_inv idx (neighborsOfIdx g idx) g rest b gm qm hinv hne hpn
      cases b with
      | false =>
        simp only [] at h
        injection h with h1
        injection h1 with hr hg
        subst hg
        exact hmid
      | true =>
        exact ih qm gm r g2 hmid.1 hmid.2 h

/-! ### Pointwise description of a single 90-degree rotation -/

/-- Rotating by one step sends the WEST socket to NORTH. -/
theorem rot1_north (S : Sockets) :
    _rotate_sockets_map S 1 Direction.NORTH = some (socketGet S Direction.WEST) := rfl

/-- Rotating by one step sends the NORTH socket to EAST. -/
theorem rot1_east (S : Sockets) :
    _rotate_sockets_map S 1 Direction.EAST = some (socketGet S Direction.NORTH) := rfl

/-- Rotating by one step sends the EAST socket to SOUTH. -/
theorem rot1_south (S : Sockets) :
    _rotate_sockets_map S 1 Direction.SOUTH = some (socketGet S Direction.EAST) := rfl

/-- Rotating by one step sends the SOUTH socket to WEST. -/
theorem rot1_west (S : Sockets) :
    _rotate_sockets_map S 1 Direction.WEST = some (socketGet S Direction.SOUTH) := rfl

/-- Rotating by one step keeps the UP socket. -/
theorem rot1_up (S : Sockets) :
    _rotate_sockets_map S 1 Direction.UP = some (socketGet S Direction.UP) := rfl

/-- Rotating by one step keeps the DOWN socket. -/
theorem rot1_down (S : Sockets) :
    _rotate_sockets_map S 1 Direction.DOWN = some (socketGet S Direction.DOWN) := rfl

/-! ### Claim theorems -/

/-- Claim C1: for every nonempty tile list and positive grid dimensions,
`generate` fails with an attribute error before producing any placement:
`WFCGrid.__init__` stores the possibility sets only under
`possible_tiles_for_cells`, while `is_solved` (the first call the solve loop
makes) reads the never-assigned attribute `cells`, and `generate`
additionally calls the nonexistent method `index`. The conjuncts record:
the run returns the `AttributeError` (so no placement list), `is_solved`
raises it on every grid whose `cells` attribute is unset, the `index`
lookup always raises, and the grid `generate` builds has `cells` unset. -/
theorem generate_always_attribute_error
    (bases : List WFCTile) (sx sy sz : ℕ) (rng : RNG) (gd : Option Guidance)
    (cb : Bool) (rp : ℕ)
    (_hb : bases ≠ []) (_hx : 0 < sx) (_hy : 0 < sy) (_hz : 0 < sz) :
    generate bases sx sy sz rng gd cb rp = Except.error PyErr.attributeErrorCells ∧
    (∀ g : WFCGrid, g.cells = none → is_solved g = Except.error PyErr.attributeErrorCells) ∧
    (∀ g : WFCGrid, g.index_lookup = Except.error PyErr.attributeErrorIndex) ∧
    (WFCGrid.init sx sy sz (create_variants bases)
      (build_adjacency (create_variants bases)) rng gd).cells = none := by
  refine ⟨rfl, ?_, fun _ => rfl, rfl⟩
  intro g hg
  unfold is_solved WFCGrid.getCells
  rw [hg]
  rfl

/-- Witness for claim C1 at a concrete input: one all-wildcard tile on a
1x1x1 grid. -/
theorem generate_always_attribute_error_witness :
    generate [tileW] 1 1 1 rng0 none false 1 = Except.error PyErr.attributeErrorCells :=
  (generate_always_attribute_error [tileW] 1 1 1 rng0 none false 1
    (List.cons_ne_nil _ _) (by decide) (by decide) (by decide)).1

/-- Counterexample to claim C2: for the rotation-enabled tile `tileR`,
variant generation emits only the `rot=0` variant — one variant, not the
claimed additional `rot=1,2,3` variants. -/
theorem create_variants_ignores_allow_rot :
    tileR.allow_rot = true ∧
    (create_variants [tileR]).map WFCTileVariant.rot = [0] ∧
    (create_variants [tileR]).length ≠ 4 :=
  ⟨rfl, by decide, by decide⟩

/-- Claim C2 as amended: for every tile list, variant generation emits
exactly one variant per tile, in input order, namely the `rot=0` variant of
that tile with rotation disabled; the `allow_rot` flag of the base is
ignored and no rotated variants are emitted. -/
theorem create_variants_rot_zero_only (bases : List WFCTile) :
    (create_variants bases).length = bases.length ∧
    (∀ v ∈ create_variants bases, v.rot = 0 ∧ v.allow_rot = false) ∧
    ∀ i, i < bases.length →
      (create_variants bases).getD i dummyVariant
        = WFCTileVariant.make (bases.getD i dummyTile) 0 := by
  refine ⟨by simp [create_variants], ?_, ?_⟩
  · intro v hv
    simp only [create_variants, List.mem_map] at hv
    obtain ⟨b, _, rfl⟩ := hv
    exact ⟨rfl, rfl⟩
  · intro i hi
    exact list_getD_map (fun b => WFCTileVariant.make b 0) bases i dummyTile hi

/-- Witness for the amended claim C2 at a concrete input. -/
theorem create_variants_rot_zero_only_witness :
    (create_variants [tileR]).getD 0 dummyVariant
      = WFCTileVariant.make ([tileR].getD 0 dummyTile) 0 :=
  (create_variants_rot_zero_only [tileR]).2.2 0 (by decide)

/-- Claim C3: `sockets_compatible` returns false when `"NA"` is in either
set (decided before the wildcard rule); otherwise true when `"*"` is in
either set; otherwise true iff the sets intersect. Consequently
`sockets_compatible {"*"} S` is true for every `S` not containing `"NA"`,
and the function is commutative. -/
theorem sockets_compatible_spec (A B : Finset String) :
    ((tokNA ∈ A ∨ tokNA ∈ B) → sockets_compatible A B = false) ∧
    (tokNA ∉ A → tokNA ∉ B → (tokStar ∈ A ∨ tokStar ∈ B) → sockets_compatible A B = true) ∧
    (tokNA ∉ A → tokNA ∉ B → tokStar ∉ A → tokStar ∉ B →
      (sockets_compatible A B = true ↔ (A ∩ B).Nonempty)) ∧
    (tokNA ∉ B → sockets_compatible {tokStar} B = true) ∧
    sockets_compatible A B = sockets_compatible B A := by
  refine ⟨?_, ?_, ?_, ?_, ?_⟩
  · intro h
    simp only [sockets_compatible, if_pos h]
  · intro h1 h2 h3
    simp only [sockets_compatible]
    rw [if_neg (by tauto), if_pos h3]
  · intro h1 h2 h3 h4
    simp only [sockets_compatible]
    rw [if_neg (by tauto), if_neg (by tauto)]
    exact decide_eq_true_iff
  · intro h
    have hnot : ¬(tokNA ∈ ({tokStar} : Finset String) ∨ tokNA ∈ B) := by
      rintro (hm | hm)
      · exact absurd (Finset.mem_singleton.mp hm) (by decide)
      · exact h hm
    simp only [sockets_compatible]
    rw [if_neg hnot, if_pos (Or.inl (Finset.mem_singleton_self tokStar))]
  · by_cases hna : tokNA ∈ A <;> by_cases hnb : tokNA ∈ B <;>
      by_cases hsa : tokStar ∈ A <;> by_cases hsb : tokStar ∈ B <;>
      simp [sockets_compatible, hna, hnb, hsa, hsb, Finset.inter_comm]

/-- Witness for claim C3 at concrete token sets. -/
theorem sockets_compatible_spec_witness :
    sockets_compatible {tokNA} {tokStar} = false ∧
    sockets_compatible {tokStar} ∅ = true ∧
    sockets_compatible {tokStar} {tokNA} = sockets_compatible {tokNA} {tokStar} := by
  refine ⟨?_, ?_, ?_⟩
  · exact (sockets_compatible_spec {tokNA} {tokStar}).1 (Or.inl (Finset.mem_singleton_self tokNA))
  · exact (sockets_compatible_spec ∅ ∅).2.2.2.1 (Finset.not_mem_empty tokNA)
  · exact (sockets_compatible_spec {tokStar} {tokNA}).2.2.2.2

/-- Claim C4: the propagation sweep preserves the cell invariant
(`collapsed = some v` iff the possibility set is exactly `{v}`) and never
leaves any cell with an empty possibility set: an empty intersection makes
`propagate` return `false` (Stalled) before the empty set is ever stored,
so after every propagation step every cell satisfies the invariant and
stays nonempty. -/
theorem propagate_preserves_invariant (fuel : ℕ) (g : WFCGrid) (r : Bool) (g2 : WFCGrid)
    (hinv : Invariant g) (hne : AllNonempty g)
    (hrun : propagate fuel g = some (r, g2)) :
    Invariant g2 ∧ AllNonempty g2 :=
  propagateLoop_inv fuel _ g r g2 hinv hne hrun

/-- Witness for claim C4: a concrete 2x1x1 grid where propagation forces
cell 1 into tile 1 and terminates normally. -/
theorem propagate_preserves_invariant_witness : Invariant gOut ∧ AllNonempty gOut :=
  propagate_preserves_invariant 3 gIn true gOut (by decide) (by decide) (by rfl)

/-- Claim C5 (code bug): the claim says a propagation contradiction ends
the run normally (Stalled) with a partial placement list and no exception.
In the code, `generate` raises `AttributeError` at the first `is_solved`
call — before `propagate` can ever run and before any placement list is
built — so the Stalled path is unreachable; evaluating the code at a
concrete input returns the error, not a placement list. -/
theorem generate_error_masks_stall :
    generate [tileW, tileNA] 2 1 1 rng0 none true 2 = Except.error PyErr.attributeErrorCells := rfl

/-- Claim C6 (code bug): the claim describes the weighted collapse
(weights `tile.weight * max(0.0001, guidance)`, fallback to uniform, sample,
set the possibilities to the chosen singleton, mark collapsed). In the code,
`collapse_random` reads the never-assigned attribute `cells` (first in
`_entropy_cell_indices`, then in the final possibility update), so it raises
`AttributeError` before computing any weight or collapsing any cell. -/
theorem collapse_random_attribute_error :
    collapse_random (WFCGrid.init 2 1 1 (create_variants [tileW])
      (build_adjacency (create_variants [tileW])) rng0 none)
      = Except.error PyErr.attributeErrorCells := rfl

/-- Counterexample to claim C7: on the empty tile list, `generate` does not
fail fast before any cell is created — the grid it builds contains one cell
(with an empty possibility set), and the failure is the later
`AttributeError` from `is_solved`, not an input-validation error. -/
theorem generate_no_input_validation :
    generate [] 1 1 1 rng0 none false 1 = Except.error PyErr.attributeErrorCells ∧
    (WFCGrid.init 1 1 1 (create_variants []) (build_adjacency (create_variants []))
      rng0 none).possible_tiles_for_cells = [∅] :=
  ⟨rfl, by decide⟩

/-- Claim C7 as amended: for an empty tile list or a zero grid dimension,
`generate` performs no input validation; it constructs the grid (allocating
one possibility set per cell) and then fails synchronously with the
`AttributeError` from the first `is_solved` call, producing no placements. -/
theorem generate_bad_input_attribute_error
    (bases : List WFCTile) (sx sy sz : ℕ) (rng : RNG) (gd : Option Guidance)
    (cb : Bool) (rp : ℕ)
    (_hbad : bases = [] ∨ sx = 0 ∨ sy = 0 ∨ sz = 0) :
    generate bases sx sy sz rng gd cb rp = Except.error PyErr.attributeErrorCells := rfl

/-- Witness for the amended claim C7 at a concrete input. -/
theorem generate_bad_input_attribute_error_witness :
    generate [] 2 2 2 rng0 none false 1 = Except.error PyErr.attributeErrorCells :=
  generate_bad_input_attribute_error [] 2 2 2 rng0 none false 1 (Or.inl rfl)

/-- Counterexample to claim C8: on the single all-NA tile and a (2,2,1)
grid, `generate` does not return a placement list of exactly 1 placement
(it does not return a placement list at all). -/
theorem single_na_tile_counterexample :
    ¬ ∃ res : GenResult, generate [tileNA] 2 2 1 rng0 none false 1 = Except.ok res ∧
      res.placements.length = 1 := by
  rintro ⟨res, hres, -⟩
  rw [show generate [tileNA] 2 2 1 rng0 none false 1
      = Except.error PyErr.attributeErrorCells from rfl] at hres
  exact Except.noConfusion hres

/-- Claim C8 as amended: for the single tile whose every face is `{"NA"}`
with rotation disabled, `generate` on a (2,2,1) grid raises `AttributeError`
(reading the undefined attribute `cells`) before any collapse, for every
random source, guidance, callback flag and repair-pass count; no placement
list is produced. -/
theorem single_na_tile_generate_error (rng : RNG) (gd : Option Guidance) (cb : Bool) (rp : ℕ) :
    generate [tileNA] 2 2 1 rng gd cb rp = Except.error PyErr.attributeErrorCells := rfl

/-- Claim C9: for a fixed tile list, fixed grid size and a fixed seed
(equal random sources), two runs of `generate` produce identical results —
in particular identical placement sequences. In this embedding `generate`
is a pure function of the listed inputs, so the outcome depends on nothing
else; by claim C1 every run in fact returns the same `AttributeError`. -/
theorem generate_deterministic (bases : List WFCTile) (sx sy sz : ℕ)
    (gd : Option Guidance) (cb : Bool) (rp : ℕ) (r1 r2 : RNG) (hseed : r1 = r2) :
    generate bases sx sy sz r1 gd cb rp = generate bases sx sy sz r2 gd cb rp := by
  rw [hseed]

/-- Witness for claim C9 at a concrete input. -/
theorem generate_deterministic_witness :
    generate [tileW] 2 2 2 rng0 none false 1 = generate [tileW] 2 2 2 rng0 none false 1 :=
  generate_deterministic [tileW] 2 2 2 none false 1 rng0 rng0 rfl

/-- Counterexample to claim C10: rotating the empty socket map by one step
four times does not return the original map — `_rotate_sockets_map` fills
missing faces with the wildcard set `{"*"}`, so the EAST entry of the
result is `some {"*"}` while the original has none. -/
theorem rotate_four_counterexample :
    _rotate_sockets_map (_rotate_sockets_map (_rotate_sockets_map
      (_rotate_sockets_map emptySockets 1) 1) 1) 1 ≠ emptySockets := by
  intro h
  have h2 := congrFun h Direction.EAST
  rw [show _rotate_sockets_map (_rotate_sockets_map (_rotate_sockets_map
      (_rotate_sockets_map emptySockets 1) 1) 1) 1 Direction.EAST
      = some {tokStar} from rfl] at h2
  exact Option.noConfusion h2

/-- Claim C10 as amended: for every socket map with an entry for all six
directions (the data-model invariant for tile and variant sockets),
rotating by one 90-degree step four times in succession returns the
original socket map. -/
theorem rotate_four_total_identity (S : Sockets) (h : ∀ d, (S d).isSome) :
    _rotate_sockets_map (_rotate_sockets_map (_rotate_sockets_map
      (_rotate_sockets_map S 1) 1) 1) 1 = S := by
  obtain ⟨vN, hN⟩ := Option.isSome_iff_exists.mp (h Direction.NORTH)
  obtain ⟨vE, hE⟩ := Option.isSome_iff_exists.mp (h Direction.EAST)
  obtain ⟨vS, hS⟩ := Option.isSome_iff_exists.mp (h Direction.SOUTH)
  obtain ⟨vW, hW⟩ := Option.isSome_iff_exists.mp (h Direction.WEST)
  obtain ⟨vU, hU⟩ := Option.isSome_iff_exists.mp (h Direction.UP)
  obtain ⟨vD, hD⟩ := Option.isSome_iff_exists.mp (h Direction.DOWN)
  funext d
  cases d <;>
    simp [rot1_north, rot1_east, rot1_south, rot1_west, rot1_up, rot1_down,
      socketGet, hN, hE, hS, hW, hU, hD]

/-- Witness for the amended claim C10 at a concrete fully defined map. -/
theorem rotate_four_total_identity_witness :
    _rotate_sockets_map (_rotate_sockets_map (_rotate_sockets_map
      (_rotate_sockets_map socketsTotal 1) 1) 1) 1 = socketsTotal :=
  rotate_four_total_identity socketsTotal (by intro d; cases d <;> rfl)
